import Mathlib

/-
Shallow embedding of the CFC shared-mint marketplace backend
(src/server.js and the unnamed source variants), covering the data model
(marketplace_nfts, orders, marketplace_sell_offers), the settlement webhook
POST /api/xaman/webhook, the sell-offer polling loop of
POST /api/list-on-marketplace, the cached catalog read GET /api/market/all,
POST /api/market/toggle-delist, and the payment-initiation endpoints of the
part_004 variant.
-/

namespace CfcMint

/-- Row of the marketplace_nfts table (src/server.js initDB).  The price
columns are TEXT and nullable, quantity and sold_count are integers. -/
structure MarketplaceNft where
  id : Nat
  submission_id : Int
  name : String
  description : String
  creator_wallet : String
  price_xrp : Option String
  price_rlusd : Option String
  quantity : Int
  sold_count : Int
  minted : Bool
  sold : Bool
  is_delisted : Bool
  sell_offer_index_xrp : Option String
  sell_offer_index_rlusd : Option String
deriving DecidableEq, Repr

/-- Row of the orders table (src/server.js initOrdersDB).  price is
NUMERIC(20,8) NOT NULL, modelled as Rat; xumm_payload_uuid and tx_hash are
nullable and carry partial unique indexes (the idempotency keys). -/
structure Order where
  marketplace_nft_id : Nat
  buyer_wallet : String
  price : Rat
  currency : String
  status : String
  xumm_payload_uuid : Option String
  tx_hash : Option String
deriving DecidableEq, Repr

/-- Row of marketplace_sell_offers (created in part_003's initDB, written and
updated by the webhook of src/server.js).  sell_offer_index carries a unique
index. -/
structure MarketplaceSellOffer where
  marketplace_nft_id : Nat
  nftoken_id : String
  sell_offer_index : String
  currency : String
  status : String
deriving DecidableEq, Repr

/-- The persistent store: the three tables the claims touch. -/
structure DB where
  nfts : List MarketplaceNft
  orders : List Order
  sellOffers : List MarketplaceSellOffer
deriving DecidableEq, Repr

/-- Split a character list at every dot, keeping empty pieces, the way JS
splits a string on a separator. -/
def splitOnDot : List Char → List (List Char)
  | [] => [[]]
  | c :: rest =>
    if c == '.' then [] :: splitOnDot rest
    else
      match splitOnDot rest with
      | [] => [[c]]
      | h :: tl => (c :: h) :: tl

/-- Value of an all-digit character list under a left accumulator; none on
any other character. -/
def digitsVal : List Char → Nat → Option Nat
  | [], acc => some acc
  | c :: cs, acc => if c.isDigit then digitsVal cs (10 * acc + (c.toNat - 48)) else none

/-- Postgres cast of a plain decimal string to NUMERIC, which is also the
value of JS Number on a digits-and-dots string: at most one dot and at
least one digit; ".5" and "5." parse, while "", "." and "1.2.3" do not. -/
def decimalToRat? (s : String) : Option Rat :=
  match splitOnDot s.toList with
  | [w] => if w = [] then none else (digitsVal w 0).map (fun n => (n : Rat))
  | [w, f] =>
    if w = [] ∧ f = [] then none
    else
      match (if w = [] then some 0 else digitsVal w 0),
            (if f = [] then some 0 else digitsVal f 0) with
      | some a, some b => some ((a : Rat) + (b : Rat) / ((10 : Rat) ^ f.length))
      | _, _ => none
  | _ => none

/-- parsePrice of part_004 (lines 45-54): null gives NaN; for a string, strip
every character that is not a digit or a dot, an empty remainder gives NaN,
otherwise Number(cleaned).  The stored price columns are TEXT, so only the
null and string branches of the source are live; NaN is modelled as none. -/
def parsePrice (raw : Option String) : Option Rat :=
  match raw with
  | none => none
  | some s =>
    let cleaned := String.mk (s.toList.filter (fun c => c.isDigit || c == '.'))
    if cleaned = "" then none else decimalToRat? cleaned

/-- JS string-or-default: undefined, null and the empty string fall through
to the default. -/
def strOr (x : Option String) (d : String) : String :=
  match x with
  | some s => if s = "" then d else s
  | none => d

/-- SELECT * FROM marketplace_nfts WHERE id equals the argument (first row,
ids are a primary key). -/
def selectNft (nfts : List MarketplaceNft) (i : Nat) : Option MarketplaceNft :=
  nfts.find? (fun l => l.id == i)

/-- UPDATE marketplace_sell_offers SET status to USED WHERE
sell_offer_index matches. -/
def markOfferUsed (db : DB) (sidx : String) : DB :=
  { db with sellOffers := db.sellOffers.map (fun o =>
      if o.sell_offer_index = sidx then { o with status := "USED" } else o) }

/-- The pre-transaction block of the purchase path (src/server.js lines
714-723): when the blob carries a truthy sell_offer_index, mark that offer
USED.  In the source this statement runs before BEGIN, on autocommit. -/
def applyOfferUsed (db : DB) (sidx? : Option String) : DB :=
  match sidx? with
  | some sidx => if sidx = "" then db else markOfferUsed db sidx
  | none => db

/-- UPDATE marketplace_nfts SET quantity = quantity - 1, sold_count =
sold_count + 1 WHERE id matches (src/server.js lines 763-771).  The
statement carries no guard on quantity. -/
def decrementQty (db : DB) (i : Nat) : DB :=
  { db with nfts := db.nfts.map (fun l =>
      if l.id == i then { l with quantity := l.quantity - 1, sold_count := l.sold_count + 1 } else l) }

/-- The correlation metadata blob (custom_meta.blob) fields the webhook
handler of src/server.js reads. -/
structure Blob where
  nft_id : Option Nat
  currency : Option String
  sell_offer_index : Option String
  marketplace_nft_id : Option Nat
deriving DecidableEq, Repr

/-- The fields of the Xaman webhook body (req.body.payload) that the
src/server.js handler reads. -/
structure Payload where
  dispatched_result : Option String
  signed : Option Bool
  txid : Option String
  account : Option String
  txType : Option String
  txjson_nftoken_id : Option String
  created_offer_id : Option String
  blob : Option Blob
deriving DecidableEq, Repr

/-- Webhook answer: ok is res.json with ok true (status 200), err is the
500 of the catch block. -/
inductive Resp
  | ok
  | err
deriving DecidableEq, Repr

/-- The BEGIN..COMMIT section of the purchase path of POST
/api/xaman/webhook in src/server.js (lines 724-773), applied to the state
db1 as of BEGIN: lock and load the listing, sold-out guard, idempotent
order INSERT, unguarded decrement, COMMIT.  Every ROLLBACK path returns
db1 unchanged; Resp.err is the 500 of the catch block, reached here by the
NOT NULL and cast errors of the order INSERT (price and currency are NOT
NULL). -/
def purchaseTxn (db1 : DB) (p : Payload) (t : String) (nid : Nat) (buyer : String) : DB × Resp :=
  match selectNft db1.nfts nid with
  | none => (db1, .ok)
  | some nft =>
    if nft.quantity ≤ 0 then (db1, .ok)
    else
      match p.blob.bind Blob.currency,
            (if p.blob.bind Blob.currency = some "RLUSD"
             then nft.price_rlusd else nft.price_xrp) with
      | some cur, some praw =>
        match decimalToRat? praw with
        | none => (db1, .err)
        | some pr =>
          if db1.orders.any (fun o => o.tx_hash == some t) then (db1, .ok)
          else
            (decrementQty
              { db1 with orders := db1.orders ++
                  [{ marketplace_nft_id := nft.id, buyer_wallet := buyer,
                     price := pr, currency := cur, status := "PAID",
                     xumm_payload_uuid := none, tx_hash := some t }] }
              nft.id, .ok)
      | _, _ => (db1, .err)

/-- The purchase section of POST /api/xaman/webhook in src/server.js (lines
714-774), reached with a present, non-falsy txid t, blob.nft_id nid and
buyer account: in the source the sell-offer USED update runs before BEGIN,
on autocommit, so it is kept on every later path including rollbacks. -/
def purchaseBody (db : DB) (p : Payload) (t : String) (nid : Nat) (buyer : String) : DB × Resp :=
  purchaseTxn (applyOfferUsed db (p.blob.bind Blob.sell_offer_index)) p t nid buyer

/-- The POST /api/xaman/webhook handler of src/server.js (lines 662-783):
the signed-and-dispatched filter, the NFTokenCreateOffer branch (whose
INSERT has no ON CONFLICT clause in this file, so a duplicate offer index
raises and answers 500), the correlation check on txid, blob.nft_id and
buyer (JS falsiness: missing, empty string or zero), then the purchase
section. -/
def xamanWebhook (db : DB) (p? : Option Payload) : DB × Resp :=
  match p? with
  | none => (db, .ok)
  | some p =>
    if p.dispatched_result = some "tesSUCCESS" ∧ p.signed = some true then
      if p.txType = some "NFTokenCreateOffer" then
        match p.blob with
        | some meta =>
          match meta.marketplace_nft_id, p.created_offer_id with
          | some mid, some oidx =>
            if mid = 0 ∨ oidx = "" then (db, .ok)
            else if db.sellOffers.any (fun o => o.sell_offer_index == oidx) then (db, .err)
            else
              ({ db with sellOffers := db.sellOffers ++
                  [{ marketplace_nft_id := mid,
                     nftoken_id := p.txjson_nftoken_id.getD "undefined",
                     sell_offer_index := oidx,
                     currency := strOr meta.currency "XRP",
                     status := "OPEN" }] }, .ok)
          | _, _ => (db, .ok)
        | none => (db, .ok)
      else
        match p.txid, p.blob.bind Blob.nft_id, p.account with
        | some t, some nid, some buyer =>
          if t = "" ∨ nid = 0 ∨ buyer = "" then (db, .ok)
          else purchaseBody db p t nid buyer
        | _, _, _ => (db, .ok)
    else (db, .ok)

/-- Deliver a sequence of webhook events one after the other.  The exclusive
row lock of the handler serializes all confirmations for one listing, so
sequential delivery is the model of any interleaving. -/
def runWebhook (db : DB) (evs : List (Option Payload)) : DB :=
  evs.foldl (fun d e => (xamanWebhook d e).1) db

/-- Remaining quantity of the listing with the given id, when it exists. -/
def listingQty (db : DB) (i : Nat) : Option Int :=
  (selectNft db.nfts i).map MarketplaceNft.quantity

/-- Number of orders rows carrying the given ledger transaction id. -/
def ordersWithTx (db : DB) (t : String) : Nat :=
  (db.orders.filter (fun o => o.tx_hash == some t)).length

/-- Sleep length before each poll attempt in /api/list-on-marketplace
(src/server.js line 262). -/
def POLL_INTERVAL_MS : Nat := 2000

/-- Attempt bound of the polling loop (src/server.js line 261). -/
def POLL_MAX_ATTEMPTS : Nat := 12

/-- The sell-offer polling loop of POST /api/list-on-marketplace
(src/server.js lines 259-274): up to the fuel's number of attempts, each
preceded by one POLL_INTERVAL_MS sleep, query the ledger; a non-empty
answer yields the newest (last) offer index and stops the loop.
responses gives the ledger's answer to the attempt with each index. -/
def pollLoop (responses : Nat → List String) : Nat → Nat → Option String
  | _, 0 => none
  | i, fuel + 1 =>
    match responses i with
    | [] => pollLoop responses (i + 1) fuel
    | offers => offers.getLast?

/-- Number of ledger queries (equally, of 2s sleeps) the loop performs. -/
def pollQueries (responses : Nat → List String) : Nat → Nat → Nat
  | _, 0 => 0
  | i, fuel + 1 =>
    match responses i with
    | [] => 1 + pollQueries responses (i + 1) fuel
    | _ => 1

/-- Outcome of /api/list-on-marketplace after the Xaman submission. -/
inductive ListResp
  | link
  | offerNotFound
deriving DecidableEq, Repr

/-- Tail of POST /api/list-on-marketplace after the Xaman submission
(src/server.js lines 258-285): poll; on exhaustion answer 500 with no
write, otherwise persist the found index into sell_offer_index_xrp of the
listing and answer the signing link. -/
def listOnMarketplacePoll (db : DB) (mid : Nat) (responses : Nat → List String) : DB × ListResp :=
  match pollLoop responses 0 POLL_MAX_ATTEMPTS with
  | none => (db, .offerNotFound)
  | some idx =>
    ({ db with nfts := db.nfts.map (fun l =>
        if l.id == mid then { l with sell_offer_index_xrp := some idx } else l) }, .link)

/-- One row of the /api/market/all answer: the listing columns plus the two
computed columns of the SELECT. -/
structure CatalogRow where
  item : MarketplaceNft
  quantity_remaining : Int
  sold_out : Bool
deriving DecidableEq, Repr

/-- The catalog SELECT of /api/market/all (src/server.js lines 383-393),
rows kept in store order. -/
def catalogQuery (nfts : List MarketplaceNft) : List CatalogRow :=
  (nfts.filter (fun l => l.minted && !l.sold && !l.is_delisted)).map (fun l =>
    { item := l, quantity_remaining := l.quantity, sold_out := max l.quantity 0 == 0 })

/-- Snapshot time-to-live (src/server.js line 143). -/
def MARKET_ALL_TTL_MS : Nat := 10000

/-- The single mutable snapshot marketAllCache: a timestamp and the last
payload; the initial and the cleared state hold ts zero and data null. -/
structure MarketCache where
  ts : Nat
  data : Option (List CatalogRow)
deriving DecidableEq, Repr

/-- An HTTP answer of the catalog read: status code and JSON rows. -/
inductive MarketResp
  | json (status : Nat) (rows : List CatalogRow)
deriving DecidableEq, Repr

/-- GET /api/market/all (src/server.js lines 375-402): answer from the
snapshot when it is non-null and younger than the TTL, otherwise run the
query and replace the snapshot; a query error is caught and answered as
200 with an empty array, leaving the snapshot alone. -/
def marketAll (cache : MarketCache) (now : Nat) (queryResult : Except Unit (List CatalogRow)) :
    MarketCache × MarketResp :=
  match cache.data with
  | some rows =>
    if now - cache.ts < MARKET_ALL_TTL_MS then (cache, .json 200 rows)
    else
      match queryResult with
      | .ok r => ({ ts := now, data := some r }, .json 200 r)
      | .error _ => (cache, .json 200 [])
  | none =>
    match queryResult with
    | .ok r => ({ ts := now, data := some r }, .json 200 r)
    | .error _ => (cache, .json 200 [])

/-- In-process cache plus store. -/
structure Sys where
  cache : MarketCache
  db : DB
deriving DecidableEq, Repr

/-- A catalog read at time now whose store query succeeds. -/
def readOp (s : Sys) (now : Nat) : Sys × MarketResp :=
  let cr := marketAll s.cache now (.ok (catalogQuery s.db.nfts))
  ({ s with cache := cr.1 }, cr.2)

/-- A webhook delivery; the handler of src/server.js never references
marketAllCache, so the snapshot is untouched. -/
def webhookOp (s : Sys) (p? : Option Payload) : Sys × Resp :=
  let dr := xamanWebhook s.db p?
  ({ s with db := dr.1 }, dr.2)

/-- Answer of the delist toggle. -/
inductive ToggleResp
  | okTrue
  | invalid
deriving DecidableEq, Repr

/-- POST /api/market/toggle-delist (src/server.js lines 603-624): reject a
non-numeric submission_id with 400 before any store access; otherwise set
is_delisted on every row with that submission_id, clear the snapshot, and
answer ok (also when no row matched). -/
def toggleDelist (s : Sys) (sid? : Option Int) (delist : Bool) : Sys × ToggleResp :=
  match sid? with
  | none => (s, .invalid)
  | some sid =>
    ({ cache := { ts := 0, data := none },
       db := { s.db with nfts := s.db.nfts.map (fun l =>
          if l.submission_id = sid then { l with is_delisted := delist } else l) } },
     .okTrue)

/-- Answer of the part_004 payment-initiation endpoints. -/
inductive PayResp
  | link
  | notFound
  | invalidPrice
deriving DecidableEq, Repr

/-- POST /api/market/pay-xrp of part_004 (lines 149-209): after the price
check it bumps sold_count and decrements quantity at payment-initiation
time, then posts the signing payload; no order row is written and no
guard protects the decrement. -/
def payXrpP4 (db : DB) (i : Nat) : DB × PayResp :=
  match db.nfts.find? (fun l => l.id == i) with
  | none => (db, .notFound)
  | some item =>
    match parsePrice item.price_xrp with
    | none => (db, .invalidPrice)
    | some amt =>
      if amt ≤ 0 then (db, .invalidPrice)
      else
        ({ db with nfts := db.nfts.map (fun l =>
            if l.id == i then { l with sold_count := l.sold_count + 1, quantity := l.quantity - 1 } else l) },
         .link)

/-- POST /api/market/pay-rlusd of part_004 (lines 214-276): the same
unguarded decrement without an order row, keyed on the RLUSD price. -/
def payRlusdP4 (db : DB) (i : Nat) : DB × PayResp :=
  match db.nfts.find? (fun l => l.id == i) with
  | none => (db, .notFound)
  | some item =>
    match parsePrice item.price_rlusd with
    | none => (db, .invalidPrice)
    | some amt =>
      if amt ≤ 0 then (db, .invalidPrice)
      else
        ({ db with nfts := db.nfts.map (fun l =>
            if l.id == i then { l with sold_count := l.sold_count + 1, quantity := l.quantity - 1 } else l) },
         .link)

/- Helper lemmas shared by several claims. -/

theorem markOfferUsed_nfts (db : DB) (sidx : String) : (markOfferUsed db sidx).nfts = db.nfts := rfl

theorem markOfferUsed_orders (db : DB) (sidx : String) : (markOfferUsed db sidx).orders = db.orders := rfl

theorem applyOfferUsed_nfts (db : DB) (s? : Option String) : (applyOfferUsed db s?).nfts = db.nfts := by
  cases s? with
  | none => rfl
  | some s => by_cases h : s = "" <;> simp [applyOfferUsed, h, markOfferUsed]

theorem applyOfferUsed_orders (db : DB) (s? : Option String) : (applyOfferUsed db s?).orders = db.orders := by
  cases s? with
  | none => rfl
  | some s => by_cases h : s = "" <;> simp [applyOfferUsed, h, markOfferUsed]

theorem find?_map_pred {α : Type} (f : α → α) (q : α → Bool) (xs : List α) :
    (xs.map f).find? q = (xs.find? (fun x => q (f x))).map f := by
  induction xs with
  | nil => rfl
  | cons a tl ih =>
    simp only [List.map_cons, List.find?_cons]
    split <;> simp_all

/-- A well-formed purchase event reduces the handler to its purchase
section. -/
theorem xamanWebhook_purchase (db : DB) (p : Payload) (t : String) (nid : Nat) (buyer : String)
    (h1 : p.dispatched_result = some "tesSUCCESS") (h2 : p.signed = some true)
    (h3 : p.txType ≠ some "NFTokenCreateOffer") (h4 : p.txid = some t)
    (h5 : p.blob.bind Blob.nft_id = some nid) (h6 : p.account = some buyer)
    (h7 : ¬ (t = "" ∨ nid = 0 ∨ buyer = "")) :
    xamanWebhook db (some p) = purchaseBody db p t nid buyer := by
  simp [xamanWebhook, h1, h2, h3, h4, h5, h6, h7]

/-- The transaction section either rolls back, returning the state as of
BEGIN, or commits the order append plus decrement for a loaded listing
with positive quantity and a fresh transaction id. -/
theorem purchaseTxn_cases (db1 : DB) (p : Payload) (t : String) (nid : Nat) (buyer : String) :
    (purchaseTxn db1 p t nid buyer).1 = db1
  ∨ ∃ nft cur praw pr,
      selectNft db1.nfts nid = some nft ∧ ¬ nft.quantity ≤ 0 ∧
      p.blob.bind Blob.currency = some cur ∧
      (if p.blob.bind Blob.currency = some "RLUSD"
       then nft.price_rlusd else nft.price_xrp) = some praw ∧
      decimalToRat? praw = some pr ∧
      (db1.orders.any fun o => o.tx_hash == some t) = false ∧
      purchaseTxn db1 p t nid buyer =
        (decrementQty
          { db1 with orders := db1.orders ++
              [{ marketplace_nft_id := nft.id, buyer_wallet := buyer, price := pr,
                 currency := cur, status := "PAID", xumm_payload_uuid := none,
                 tx_hash := some t }] }
          nft.id, .ok) := by
  unfold purchaseTxn
  split
  · left; rfl
  next nft hfind =>
    split
    · left; rfl
    next hq =>
      split
      next cur praw hcur hpraw =>
        cases hcast : decimalToRat? praw with
        | none => left; simp [hcast]
        | some pr =>
          cases hany : db1.orders.any fun o => o.tx_hash == some t with
          | true => left; simp [hcast, hany]
          | false =>
            right
            exact ⟨nft, cur, praw, pr, hfind, hq, hcur, hpraw, hcast, rfl, by simp⟩
      next => left; rfl

/-- Commit path of the transaction section, fully determined. -/
theorem purchaseTxn_commit (db1 : DB) (p : Payload) (t : String) (nid : Nat) (buyer : String)
    (nft : MarketplaceNft) (cur praw : String) (pr : Rat)
    (hfind : selectNft db1.nfts nid = some nft)
    (hq : 0 < nft.quantity)
    (hcur : p.blob.bind Blob.currency = some cur)
    (hpraw : (if cur = "RLUSD" then nft.price_rlusd else nft.price_xrp) = some praw)
    (hcast : decimalToRat? praw = some pr)
    (hfresh : ∀ o ∈ db1.orders, o.tx_hash ≠ some t) :
    purchaseTxn db1 p t nid buyer =
      (decrementQty
        { db1 with orders := db1.orders ++
            [{ marketplace_nft_id := nft.id, buyer_wallet := buyer, price := pr,
               currency := cur, status := "PAID", xumm_payload_uuid := none,
               tx_hash := some t }] }
        nft.id, .ok) := by
  have hnq : ¬ nft.quantity ≤ 0 := not_le.mpr hq
  have hany : ¬ ((db1.orders.any fun o => o.tx_hash == some t) = true) := by
    rw [List.any_eq_true]
    rintro ⟨o, ho, he⟩
    exact hfresh o ho (by simpa using he)
  simp only [purchaseTxn, hfind, hnq, if_false, hcur, Option.some.injEq, hpraw, hcast]
  rw [if_neg hany]

/-- Sold-out, missing-listing and duplicate deliveries roll back and answer
ok. -/
theorem purchaseTxn_discard_ok (db1 : DB) (p : Payload) (t : String) (nid : Nat) (buyer : String) :
    (selectNft db1.nfts nid = none → purchaseTxn db1 p t nid buyer = (db1, .ok))
  ∧ (∀ nft, selectNft db1.nfts nid = some nft → nft.quantity ≤ 0 →
      purchaseTxn db1 p t nid buyer = (db1, .ok))
  ∧ (∀ nft cur praw pr, selectNft db1.nfts nid = some nft → ¬ nft.quantity ≤ 0 →
      p.blob.bind Blob.currency = some cur →
      (if cur = "RLUSD" then nft.price_rlusd else nft.price_xrp) = some praw →
      decimalToRat? praw = some pr →
      (∃ o ∈ db1.orders, o.tx_hash = some t) →
      purchaseTxn db1 p t nid buyer = (db1, .ok)) := by
  refine ⟨?_, ?_, ?_⟩
  · intro h; simp [purchaseTxn, h]
  · intro nft h hq; simp [purchaseTxn, h, hq]
  · intro nft cur praw pr h hq hcur hpraw hcast hdup
    have hany : (db1.orders.any fun o => o.tx_hash == some t) = true := by
      rw [List.any_eq_true]
      obtain ⟨o, ho, he⟩ := hdup
      exact ⟨o, ho, by simpa using he⟩
    simp only [purchaseTxn, h]
    rw [if_neg hq]
    simp only [hcur, Option.some.injEq, hpraw, hcast, hany]
    simp

theorem decrementQty_orders (db : DB) (i : Nat) : (decrementQty db i).orders = db.orders := rfl

theorem decrementQty_nfts (db : DB) (i : Nat) :
    (decrementQty db i).nfts = db.nfts.map (fun l =>
      if l.id == i then { l with quantity := l.quantity - 1, sold_count := l.sold_count + 1 } else l) := rfl

theorem runWebhook_cons (db : DB) (e : Option Payload) (evs : List (Option Payload)) :
    runWebhook db (e :: evs) = runWebhook (xamanWebhook db e).1 evs := rfl

/-- An event that the webhook's filters accept and that reaches the purchase
section carrying ledger transaction id t. -/
def purchaseShape (p : Payload) (t : String) : Prop :=
  p.dispatched_result = some "tesSUCCESS" ∧ p.signed = some true ∧
  p.txType ≠ some "NFTokenCreateOffer" ∧ p.txid = some t ∧ t ≠ "" ∧
  (∃ nid, p.blob.bind Blob.nft_id = some nid ∧ nid ≠ 0) ∧
  (∃ a, p.account = some a ∧ a ≠ "")

/-- A webhook delivery whose transaction id already has an order row leaves
orders and listings unchanged, whatever listing or currency it names. -/
theorem xamanWebhook_dup_preserves (db : DB) (q : Payload) (t : String)
    (hshape : purchaseShape q t)
    (hconf : ∃ o ∈ db.orders, o.tx_hash = some t) :
    (xamanWebhook db (some q)).1.orders = db.orders ∧
    (xamanWebhook db (some q)).1.nfts = db.nfts := by
  obtain ⟨h1, h2, h3, h4, ht, ⟨nid, h5, hn0⟩, ⟨a, h6, ha⟩⟩ := hshape
  have h7 : ¬ (t = "" ∨ nid = 0 ∨ a = "") := by
    push_neg
    exact ⟨ht, hn0, ha⟩
  rw [xamanWebhook_purchase db q t nid a h1 h2 h3 h4 h5 h6 h7]
  unfold purchaseBody
  rcases purchaseTxn_cases (applyOfferUsed db (q.blob.bind Blob.sell_offer_index)) q t nid a with
    h | ⟨nft, cur, praw, pr, _, _, _, _, _, hany, _⟩
  · rw [h]
    exact ⟨applyOfferUsed_orders _ _, applyOfferUsed_nfts _ _⟩
  · exfalso
    rw [applyOfferUsed_orders, List.any_eq_false] at hany
    obtain ⟨o, ho, he⟩ := hconf
    exact hany o ho (by simpa using he)

/-- C1: for every sequence of one or more confirmation deliveries to the
webhook that all carry the same ledger transaction id for the same listing,
where the first passes the filters against a listing with positive quantity
and a castable price, processing the whole sequence appends exactly one
orders row (the unique row carrying that transaction id) and decrements the
listing's quantity by exactly one unit; every later duplicate is rolled
back with no change to orders or listings. -/
theorem exactly_once_settlement (db : DB) (p : Payload) (rest : List Payload)
    (t : String) (nid : Nat) (buyer : String) (nft : MarketplaceNft)
    (cur praw : String) (pr : Rat)
    (h1 : p.dispatched_result = some "tesSUCCESS") (h2 : p.signed = some true)
    (h3 : p.txType ≠ some "NFTokenCreateOffer") (h4 : p.txid = some t) (ht : t ≠ "")
    (h5 : p.blob.bind Blob.nft_id = some nid) (hn0 : nid ≠ 0)
    (h6 : p.account = some buyer) (hb : buyer ≠ "")
    (hrest : ∀ q ∈ rest, purchaseShape q t)
    (hfind : selectNft db.nfts nid = some nft) (hq : 0 < nft.quantity)
    (hcur : p.blob.bind Blob.currency = some cur)
    (hpraw : (if cur = "RLUSD" then nft.price_rlusd else nft.price_xrp) = some praw)
    (hcast : decimalToRat? praw = some pr)
    (hfresh : ∀ o ∈ db.orders, o.tx_hash ≠ some t) :
    (runWebhook db ((p :: rest).map some)).orders.length = db.orders.length + 1
  ∧ ordersWithTx (runWebhook db ((p :: rest).map some)) t = 1
  ∧ listingQty (runWebhook db ((p :: rest).map some)) nid = some (nft.quantity - 1) := by
  have h7 : ¬ (t = "" ∨ nid = 0 ∨ buyer = "") := by
    push_neg
    exact ⟨ht, hn0, hb⟩
  have hfind1 : selectNft (applyOfferUsed db (p.blob.bind Blob.sell_offer_index)).nfts nid = some nft := by
    rw [applyOfferUsed_nfts]; exact hfind
  have hfresh1 : ∀ o ∈ (applyOfferUsed db (p.blob.bind Blob.sell_offer_index)).orders,
      o.tx_hash ≠ some t := by
    intro o ho
    exact hfresh o (by rwa [applyOfferUsed_orders] at ho)
  have hstep1 : xamanWebhook db (some p) =
      (decrementQty
        { applyOfferUsed db (p.blob.bind Blob.sell_offer_index) with
          orders := (applyOfferUsed db (p.blob.bind Blob.sell_offer_index)).orders ++
            [{ marketplace_nft_id := nft.id, buyer_wallet := buyer, price := pr,
               currency := cur, status := "PAID", xumm_payload_uuid := none,
               tx_hash := some t }] }
        nft.id, Resp.ok) := by
    rw [xamanWebhook_purchase db p t nid buyer h1 h2 h3 h4 h5 h6 h7]
    exact purchaseTxn_commit _ p t nid buyer nft cur praw pr hfind1 hq hcur hpraw hcast hfresh1
  have hCorders : (xamanWebhook db (some p)).1.orders = db.orders ++
      [{ marketplace_nft_id := nft.id, buyer_wallet := buyer, price := pr,
         currency := cur, status := "PAID", xumm_payload_uuid := none,
         tx_hash := some t }] := by
    rw [hstep1]
    show ((applyOfferUsed db (p.blob.bind Blob.sell_offer_index)).orders ++ _) = _
    rw [applyOfferUsed_orders]
  have hCnfts : (xamanWebhook db (some p)).1.nfts = db.nfts.map (fun l =>
      if l.id == nft.id then { l with quantity := l.quantity - 1, sold_count := l.sold_count + 1 } else l) := by
    rw [hstep1]
    show (applyOfferUsed db (p.blob.bind Blob.sell_offer_index)).nfts.map _ = _
    rw [applyOfferUsed_nfts]
  have key : ∀ (l : List Payload) (s : DB), (∀ q ∈ l, purchaseShape q t) →
      s.orders = (xamanWebhook db (some p)).1.orders →
      s.nfts = (xamanWebhook db (some p)).1.nfts →
      (runWebhook s (l.map some)).orders = (xamanWebhook db (some p)).1.orders ∧
      (runWebhook s (l.map some)).nfts = (xamanWebhook db (some p)).1.nfts := by
    intro l
    induction l with
    | nil => exact fun s _ ho hn => ⟨ho, hn⟩
    | cons q l ih =>
      intro s hall ho hn
      have hconf : ∃ o' ∈ s.orders, o'.tx_hash = some t := by
        refine ⟨{ marketplace_nft_id := nft.id, buyer_wallet := buyer, price := pr,
                  currency := cur, status := "PAID", xumm_payload_uuid := none,
                  tx_hash := some t }, ?_, rfl⟩
        rw [ho, hCorders]
        exact List.mem_append_right _ (List.mem_singleton_self _)
      obtain ⟨hdo, hdn⟩ := xamanWebhook_dup_preserves s q t (hall q (List.mem_cons_self _ _)) hconf
      have hres := ih ((xamanWebhook s (some q)).1)
        (fun r hr => hall r (List.mem_cons_of_mem _ hr)) (hdo.trans ho) (hdn.trans hn)
      simpa [runWebhook_cons] using hres
  have hrun : runWebhook db ((p :: rest).map some) = runWebhook (xamanWebhook db (some p)).1 (rest.map some) := rfl
  obtain ⟨hfo, hfn⟩ := key rest ((xamanWebhook db (some p)).1) hrest rfl rfl
  rw [hrun]
  refine ⟨?_, ?_, ?_⟩
  · rw [hfo, hCorders]
    simp
  · unfold ordersWithTx
    rw [hfo, hCorders, List.filter_append]
    have hnilf : db.orders.filter (fun o => o.tx_hash == some t) = [] := by
      rw [List.filter_eq_nil_iff]
      intro o ho
      simpa using hfresh o ho
    rw [hnilf]
    simp
  · unfold listingQty selectNft
    rw [hfn, hCnfts, find?_map_pred]
    have hpeq : (fun l => (if l.id == nft.id
        then { l with quantity := l.quantity - 1, sold_count := l.sold_count + 1 }
        else l : MarketplaceNft).id == nid) = (fun l => l.id == nid) := by
      funext l
      by_cases hl : l.id == nft.id <;> simp [hl]
    rw [hpeq]
    have : db.nfts.find? (fun l => l.id == nid) = some nft := hfind
    rw [this]
    have hid : (nft.id == nft.id) = true := by simp
    simp [hid]

/-- Listing fixture for the C1 witness. -/
def c1nft : MarketplaceNft :=
  { id := 1, submission_id := 7, name := "Alpha", description := "", creator_wallet := "rCRE",
    price_xrp := some "10", price_rlusd := none, quantity := 2, sold_count := 0,
    minted := true, sold := false, is_delisted := false,
    sell_offer_index_xrp := none, sell_offer_index_rlusd := none }

def c1db : DB := { nfts := [c1nft], orders := [], sellOffers := [] }

def c1p : Payload :=
  { dispatched_result := some "tesSUCCESS", signed := some true,
    txid := some "T1", account := some "rBUYER", txType := some "NFTokenAcceptOffer",
    txjson_nftoken_id := none, created_offer_id := none,
    blob := some { nft_id := some 1, currency := some "XRP", sell_offer_index := none,
                   marketplace_nft_id := none } }

/-- Witness for C1 at a concrete two-delivery duplicate sequence. -/
theorem exactly_once_settlement_witness :
    (runWebhook c1db ((c1p :: [c1p]).map some)).orders.length = c1db.orders.length + 1
  ∧ ordersWithTx (runWebhook c1db ((c1p :: [c1p]).map some)) "T1" = 1
  ∧ listingQty (runWebhook c1db ((c1p :: [c1p]).map some)) 1 = some (c1nft.quantity - 1) :=
  exactly_once_settlement c1db c1p [c1p] "T1" 1 "rBUYER" c1nft "XRP" "10" 10
    rfl rfl (by decide) rfl (by decide) rfl (by decide) rfl (by decide)
    (fun q hq => by
      rw [List.mem_singleton] at hq
      subst hq
      exact ⟨rfl, rfl, by decide, rfl, by decide, ⟨1, rfl, by decide⟩, ⟨"rBUYER", rfl, by decide⟩⟩)
    rfl (by decide) rfl rfl (by decide)
    (fun o ho => absurd ho (List.not_mem_nil o))

/-- Everything the handler can do to the listings table: leave it unchanged,
or decrement a listing it loaded with positive quantity under the lock. -/
theorem xamanWebhook_nfts_cases (db : DB) (p? : Option Payload) :
    (xamanWebhook db p?).1.nfts = db.nfts
  ∨ ∃ nid nft, selectNft db.nfts nid = some nft ∧ 0 < nft.quantity ∧
      (xamanWebhook db p?).1.nfts = db.nfts.map (fun l =>
        if l.id == nft.id
        then { l with quantity := l.quantity - 1, sold_count := l.sold_count + 1 }
        else l) := by
  cases p? with
  | none => exact Or.inl rfl
  | some p =>
    simp only [xamanWebhook]
    split
    · split
      · split
        · split
          · split
            · exact Or.inl rfl
            · split
              · exact Or.inl rfl
              · exact Or.inl rfl
          · exact Or.inl rfl
        · exact Or.inl rfl
      · split
        next t nid buyer heq1 heq2 heq3 =>
          split
          · exact Or.inl rfl
          · rcases purchaseTxn_cases (applyOfferUsed db (p.blob.bind Blob.sell_offer_index)) p t nid buyer with
              h | ⟨nft, cur, praw, pr, hfind, hq, _, _, _, _, hres⟩
            · left
              unfold purchaseBody
              rw [h, applyOfferUsed_nfts]
            · right
              refine ⟨nid, nft, ?_, not_le.mp hq, ?_⟩
              · rwa [applyOfferUsed_nfts] at hfind
              · unfold purchaseBody
                rw [hres]
                show (applyOfferUsed db (p.blob.bind Blob.sell_offer_index)).nfts.map _ = _
                rw [applyOfferUsed_nfts]
        next => exact Or.inl rfl
    · exact Or.inl rfl

/-- Sold-out listing fixture for the C4 counterexample. -/
def c4nft : MarketplaceNft :=
  { id := 1, submission_id := 4, name := "Beta", description := "", creator_wallet := "rC4",
    price_xrp := some "10", price_rlusd := none, quantity := 0, sold_count := 3,
    minted := true, sold := false, is_delisted := false,
    sell_offer_index_xrp := none, sell_offer_index_rlusd := none }

def c4db : DB := { nfts := [c4nft], orders := [], sellOffers := [] }

/-- C4 counterexample: the webhook's decrement statement carries no
quantity guard in the SQL (applied to a quantity-0 row it writes -1), and
part_004's pay-xrp drives a quantity-0 listing to -1 at payment
initiation, so quantity can go negative. -/
theorem decrement_unguarded_cex :
    listingQty (decrementQty c4db 1) 1 = some (-1)
  ∧ listingQty (payXrpP4 c4db 1).1 1 = some (-1)
  ∧ (payXrpP4 c4db 1).2 = PayResp.link := by
  decide

/-- C4 amended: the webhook itself never drives a quantity negative: it
discards events when quantity is not positive at lock time, and the row
lock serializes same-listing confirmations, so any sequence of webhook
deliveries keeps every quantity non-negative (primary-key ids assumed
distinct); the decrement statement itself is unguarded and part_004's
payment initiations can still go negative. -/
theorem webhook_quantity_nonneg (db : DB) (evs : List (Option Payload))
    (hnd : (db.nfts.map MarketplaceNft.id).Nodup)
    (hpos : ∀ l ∈ db.nfts, 0 ≤ l.quantity) :
    ∀ l ∈ (runWebhook db evs).nfts, 0 ≤ l.quantity := by
  have step : ∀ (s : DB) (e : Option Payload),
      (s.nfts.map MarketplaceNft.id).Nodup → (∀ l ∈ s.nfts, 0 ≤ l.quantity) →
      ((xamanWebhook s e).1.nfts.map MarketplaceNft.id = s.nfts.map MarketplaceNft.id) ∧
      (∀ l ∈ (xamanWebhook s e).1.nfts, 0 ≤ l.quantity) := by
    intro s e hnd' hpos'
    rcases xamanWebhook_nfts_cases s e with h | ⟨nid, nft, hfind, hq, h⟩
    · rw [h]
      exact ⟨rfl, hpos'⟩
    · constructor
      · rw [h, List.map_map]
        apply List.map_congr_left
        intro l _
        by_cases hl : l.id == nft.id <;> simp [Function.comp, hl]
      · rw [h]
        intro l hl
        rw [List.mem_map] at hl
        obtain ⟨x, hx, hxe⟩ := hl
        by_cases hxi : x.id == nft.id
        · have hxid : x.id = nft.id := by simpa using hxi
          have hmemnft : nft ∈ s.nfts := List.mem_of_find?_eq_some hfind
          have hxeq : x = nft := List.inj_on_of_nodup_map hnd' hx hmemnft hxid
          subst hxeq
          rw [← hxe]
          simp only [hxi, if_true, if_pos]
          omega
        · rw [← hxe]
          simp only [hxi, if_neg, Bool.false_eq_true, not_false_eq_true, if_false]
          exact hpos' x hx
  have main : ∀ (l : List (Option Payload)) (s : DB),
      (s.nfts.map MarketplaceNft.id).Nodup → (∀ x ∈ s.nfts, 0 ≤ x.quantity) →
      ∀ x ∈ (runWebhook s l).nfts, 0 ≤ x.quantity := by
    intro l
    induction l with
    | nil => exact fun s _ hp => hp
    | cons e evs ih =>
      intro s hnd' hpos'
      rw [runWebhook_cons]
      obtain ⟨hids, hpos2⟩ := step s e hnd' hpos'
      exact ih _ (by rw [hids]; exact hnd') hpos2
  exact main evs db hnd hpos

/-- Witness for the amended C4 at a concrete store and delivery sequence,
instantiated at the one listing of the store. -/
theorem webhook_quantity_nonneg_witness :
    0 ≤ c4nft.quantity ∧ c4nft ∈ (runWebhook c4db [none, none]).nfts :=
  ⟨webhook_quantity_nonneg c4db [none, none] (by decide) (by decide) c4nft (by decide),
   by decide⟩

/-- A NULL price column for the resolved currency makes the order INSERT
raise (price is NOT NULL), which the catch block answers as 500 after
rolling the transaction back. -/
theorem purchaseTxn_nullprice (db1 : DB) (p : Payload) (t : String) (nid : Nat) (buyer : String)
    (nft : MarketplaceNft) (cur : String)
    (hfind : selectNft db1.nfts nid = some nft) (hq : ¬ nft.quantity ≤ 0)
    (hcur : p.blob.bind Blob.currency = some cur)
    (hpraw : (if cur = "RLUSD" then nft.price_rlusd else nft.price_xrp) = none) :
    purchaseTxn db1 p t nid buyer = (db1, .err) := by
  simp only [purchaseTxn, hfind]
  rw [if_neg hq]
  simp only [hcur, Option.some.injEq, hpraw]

/-- Fixture for C2: a listing with a valid price and one remaining unit. -/
def c2nft : MarketplaceNft :=
  { id := 1, submission_id := 2, name := "Gamma", description := "", creator_wallet := "rC2",
    price_xrp := some "10", price_rlusd := some "25", quantity := 1, sold_count := 0,
    minted := true, sold := false, is_delisted := false,
    sell_offer_index_xrp := none, sell_offer_index_rlusd := none }

def c2db : DB := { nfts := [c2nft], orders := [], sellOffers := [] }

/-- C2: part_004's payment-initiation endpoints decrement quantity (and bump
sold_count) while the orders table stays empty — inventory moves with no
freshly inserted order, in any transaction. -/
theorem pay_endpoints_decrement_without_order :
    (payXrpP4 c2db 1).1.orders = [] ∧ listingQty (payXrpP4 c2db 1).1 1 = some 0
  ∧ (payXrpP4 c2db 1).2 = PayResp.link
  ∧ (payRlusdP4 c2db 1).1.orders = [] ∧ listingQty (payRlusdP4 c2db 1).1 1 = some 0
  ∧ (payRlusdP4 c2db 1).2 = PayResp.link := by
  decide

/-- Fixtures for C3: an OPEN sale offer, an already-settled transaction id,
and a duplicate delivery that references the offer. -/
def c3nft : MarketplaceNft :=
  { id := 1, submission_id := 3, name := "Delta", description := "", creator_wallet := "rC3",
    price_xrp := some "10", price_rlusd := none, quantity := 5, sold_count := 1,
    minted := true, sold := false, is_delisted := false,
    sell_offer_index_xrp := none, sell_offer_index_rlusd := none }

def c3offer : MarketplaceSellOffer :=
  { marketplace_nft_id := 1, nftoken_id := "00AB", sell_offer_index := "OFF1",
    currency := "XRP", status := "OPEN" }

def c3order : Order :=
  { marketplace_nft_id := 1, buyer_wallet := "rOLD", price := 10, currency := "XRP",
    status := "PAID", xumm_payload_uuid := none, tx_hash := some "T3" }

def c3db : DB := { nfts := [c3nft], orders := [c3order], sellOffers := [c3offer] }

def c3p : Payload :=
  { dispatched_result := some "tesSUCCESS", signed := some true,
    txid := some "T3", account := some "rBUY3", txType := some "NFTokenAcceptOffer",
    txjson_nftoken_id := none, created_offer_id := none,
    blob := some { nft_id := some 1, currency := some "XRP", sell_offer_index := some "OFF1",
                   marketplace_nft_id := none } }

/-- C3: on a duplicate delivery carrying a sell_offer_index, the handler of
src/server.js marks the offer USED before BEGIN, then the duplicate order
insert conflicts and the transaction rolls back — the USED transition
survives while orders and listings stay unchanged, so a USED offer without
a new committed order is observable. -/
theorem offer_used_escapes_rollback :
    (xamanWebhook c3db (some c3p)).1.sellOffers = [{ c3offer with status := "USED" }]
  ∧ (xamanWebhook c3db (some c3p)).1.orders = c3db.orders
  ∧ (xamanWebhook c3db (some c3p)).1.nfts = c3db.nfts
  ∧ (xamanWebhook c3db (some c3p)).2 = Resp.ok := by
  decide

/-- Fixtures for C5: a listing priced at the string "0" in the primary
currency. -/
def c5nft : MarketplaceNft :=
  { id := 1, submission_id := 5, name := "Eps", description := "", creator_wallet := "rC5",
    price_xrp := some "0", price_rlusd := none, quantity := 1, sold_count := 0,
    minted := true, sold := false, is_delisted := false,
    sell_offer_index_xrp := none, sell_offer_index_rlusd := none }

def c5db : DB := { nfts := [c5nft], orders := [], sellOffers := [] }

def c5p : Payload :=
  { dispatched_result := some "tesSUCCESS", signed := some true,
    txid := some "TZ", account := some "rB5", txType := some "NFTokenAcceptOffer",
    txjson_nftoken_id := none, created_offer_id := none,
    blob := some { nft_id := some 1, currency := some "XRP", sell_offer_index := none,
                   marketplace_nft_id := none } }

/-- C5 counterexample: the webhook of src/server.js records an order with
price zero and answers ok — no discard of non-positive prices happens, and
the currency came from the correlation blob, not from the delivered-amount
shape. -/
theorem zero_price_order_recorded_cex :
    (xamanWebhook c5db (some c5p)).1.orders =
      [{ marketplace_nft_id := 1, buyer_wallet := "rB5", price := 0, currency := "XRP",
         status := "PAID", xumm_payload_uuid := none, tx_hash := some "TZ" }]
  ∧ (xamanWebhook c5db (some c5p)).2 = Resp.ok := by
  decide

/-- C5 amended: the settlement currency is the event blob's currency field
(RLUSD selects price_rlusd, anything else price_xrp), the order price is
the numeric cast of that column with no positivity check — zero-priced
orders commit — and a NULL price column raises inside the transaction,
which rolls back and answers 500 (no order row either way). -/
theorem webhook_price_resolution (db : DB) (p : Payload) (t : String) (nid : Nat)
    (buyer : String) (nft : MarketplaceNft) (cur : String)
    (h1 : p.dispatched_result = some "tesSUCCESS") (h2 : p.signed = some true)
    (h3 : p.txType ≠ some "NFTokenCreateOffer") (h4 : p.txid = some t) (ht : t ≠ "")
    (h5 : p.blob.bind Blob.nft_id = some nid) (hn0 : nid ≠ 0)
    (h6 : p.account = some buyer) (hb : buyer ≠ "")
    (hfind : selectNft db.nfts nid = some nft) (hq : 0 < nft.quantity)
    (hcur : p.blob.bind Blob.currency = some cur)
    (hfresh : ∀ o ∈ db.orders, o.tx_hash ≠ some t) :
    (∀ praw pr, (if cur = "RLUSD" then nft.price_rlusd else nft.price_xrp) = some praw →
        decimalToRat? praw = some pr →
        (xamanWebhook db (some p)).1.orders = db.orders ++
          [{ marketplace_nft_id := nft.id, buyer_wallet := buyer, price := pr,
             currency := cur, status := "PAID", xumm_payload_uuid := none,
             tx_hash := some t }])
  ∧ ((if cur = "RLUSD" then nft.price_rlusd else nft.price_xrp) = none →
        xamanWebhook db (some p) =
          (applyOfferUsed db (p.blob.bind Blob.sell_offer_index), Resp.err)) := by
  have h7 : ¬ (t = "" ∨ nid = 0 ∨ buyer = "") := by
    push_neg
    exact ⟨ht, hn0, hb⟩
  have hred := xamanWebhook_purchase db p t nid buyer h1 h2 h3 h4 h5 h6 h7
  have hfind1 : selectNft (applyOfferUsed db (p.blob.bind Blob.sell_offer_index)).nfts nid = some nft := by
    rw [applyOfferUsed_nfts]; exact hfind
  have hfresh1 : ∀ o ∈ (applyOfferUsed db (p.blob.bind Blob.sell_offer_index)).orders,
      o.tx_hash ≠ some t := by
    intro o ho
    exact hfresh o (by rwa [applyOfferUsed_orders] at ho)
  constructor
  · intro praw pr hpraw hcast
    rw [hred]
    unfold purchaseBody
    rw [purchaseTxn_commit _ p t nid buyer nft cur praw pr hfind1 hq hcur hpraw hcast hfresh1]
    show ((applyOfferUsed db (p.blob.bind Blob.sell_offer_index)).orders ++ _) = _
    rw [applyOfferUsed_orders]
  · intro hnull
    rw [hred]
    unfold purchaseBody
    exact purchaseTxn_nullprice _ p t nid buyer nft cur hfind1 (not_le.mpr hq) hcur hnull

/-- Witness for the amended C5: the zero-price commit at the concrete
fixture. -/
theorem webhook_price_resolution_witness :
    (xamanWebhook c5db (some c5p)).1.orders = c5db.orders ++
      [{ marketplace_nft_id := c5nft.id, buyer_wallet := "rB5", price := 0, currency := "XRP",
         status := "PAID", xumm_payload_uuid := none, tx_hash := some "TZ" }] :=
  (webhook_price_resolution c5db c5p "TZ" 1 "rB5" c5nft "XRP"
    rfl rfl (by decide) rfl (by decide) rfl (by decide) rfl (by decide)
    rfl (by decide) rfl
    (fun o ho => absurd ho (List.not_mem_nil o))).1 "0" 0 rfl (by decide)

/-- Fixtures for C6: a listing with no price in either currency, a
filter-passing purchase event, and an unsigned event. -/
def c6nft : MarketplaceNft :=
  { id := 1, submission_id := 6, name := "Zeta", description := "", creator_wallet := "rC6",
    price_xrp := none, price_rlusd := none, quantity := 1, sold_count := 0,
    minted := true, sold := false, is_delisted := false,
    sell_offer_index_xrp := none, sell_offer_index_rlusd := none }

def c6db : DB := { nfts := [c6nft], orders := [], sellOffers := [] }

def c6p : Payload :=
  { dispatched_result := some "tesSUCCESS", signed := some true,
    txid := some "T6", account := some "rB6", txType := some "NFTokenAcceptOffer",
    txjson_nftoken_id := none, created_offer_id := none,
    blob := some { nft_id := some 1, currency := some "XRP", sell_offer_index := none,
                   marketplace_nft_id := none } }

def c6badp : Payload :=
  { dispatched_result := some "tesSUCCESS", signed := some false,
    txid := none, account := none, txType := none,
    txjson_nftoken_id := none, created_offer_id := none, blob := none }

/-- C6 counterexample: a filter-passing purchase event against a listing
with no price for the resolved currency is answered 500 — a business
condition (the spec's InvalidPrice) surfaced to the sender instead of a
silent discard. -/
theorem missing_price_surfaces_500_cex :
    (xamanWebhook c6db (some c6p)).2 = Resp.err
  ∧ (xamanWebhook c6db (some c6p)).1 = c6db := by
  decide

/-- C6 amended: events that fail the signed-success filter, and events with
no extractable listing id, are discarded with success and no state change;
missing-listing, sold-out and duplicate deliveries are acknowledged with
success and change nothing beyond the pre-transaction USED update; but a
missing price for the resolved currency raises and is answered 500. -/
theorem webhook_discard_semantics (db : DB) (p : Payload) :
    (¬ (p.dispatched_result = some "tesSUCCESS" ∧ p.signed = some true) →
        xamanWebhook db (some p) = (db, Resp.ok))
  ∧ (p.dispatched_result = some "tesSUCCESS" → p.signed = some true →
      p.txType ≠ some "NFTokenCreateOffer" → p.blob.bind Blob.nft_id = none →
        xamanWebhook db (some p) = (db, Resp.ok))
  ∧ (∀ t nid buyer, p.dispatched_result = some "tesSUCCESS" → p.signed = some true →
      p.txType ≠ some "NFTokenCreateOffer" → p.txid = some t → t ≠ "" →
      p.blob.bind Blob.nft_id = some nid → nid ≠ 0 → p.account = some buyer → buyer ≠ "" →
      (selectNft db.nfts nid = none →
        xamanWebhook db (some p) =
          (applyOfferUsed db (p.blob.bind Blob.sell_offer_index), Resp.ok))
      ∧ (∀ nft, selectNft db.nfts nid = some nft → nft.quantity ≤ 0 →
        xamanWebhook db (some p) =
          (applyOfferUsed db (p.blob.bind Blob.sell_offer_index), Resp.ok))
      ∧ (∀ nft cur praw pr, selectNft db.nfts nid = some nft → ¬ nft.quantity ≤ 0 →
          p.blob.bind Blob.currency = some cur →
          (if cur = "RLUSD" then nft.price_rlusd else nft.price_xrp) = some praw →
          decimalToRat? praw = some pr →
          (∃ o ∈ db.orders, o.tx_hash = some t) →
        xamanWebhook db (some p) =
          (applyOfferUsed db (p.blob.bind Blob.sell_offer_index), Resp.ok))
      ∧ (∀ nft cur, selectNft db.nfts nid = some nft → ¬ nft.quantity ≤ 0 →
          p.blob.bind Blob.currency = some cur →
          (if cur = "RLUSD" then nft.price_rlusd else nft.price_xrp) = none →
        xamanWebhook db (some p) =
          (applyOfferUsed db (p.blob.bind Blob.sell_offer_index), Resp.err))) := by
  refine ⟨?_, ?_, ?_⟩
  · intro hfail
    simp only [xamanWebhook]
    rw [if_neg hfail]
  · intro hd hs hto hnid
    simp only [xamanWebhook]
    rw [if_pos ⟨hd, hs⟩, if_neg hto, hnid]
    cases p.txid <;> cases p.account <;> rfl
  · intro t nid buyer hd hs hto h4 ht h5 hn0 h6 hb
    have h7 : ¬ (t = "" ∨ nid = 0 ∨ buyer = "") := by
      push_neg
      exact ⟨ht, hn0, hb⟩
    have hred := xamanWebhook_purchase db p t nid buyer hd hs hto h4 h5 h6 h7
    obtain ⟨dmiss, dsold, ddup⟩ :=
      purchaseTxn_discard_ok (applyOfferUsed db (p.blob.bind Blob.sell_offer_index)) p t nid buyer
    refine ⟨?_, ?_, ?_, ?_⟩
    · intro hnone
      rw [hred]
      unfold purchaseBody
      exact dmiss (by rw [applyOfferUsed_nfts]; exact hnone)
    · intro nft hfind hq
      rw [hred]
      unfold purchaseBody
      exact dsold nft (by rw [applyOfferUsed_nfts]; exact hfind) hq
    · intro nft cur praw pr hfind hq hcur hpraw hcast hdup
      rw [hred]
      unfold purchaseBody
      refine ddup nft cur praw pr (by rw [applyOfferUsed_nfts]; exact hfind) hq hcur hpraw hcast ?_
      obtain ⟨o, ho, he⟩ := hdup
      exact ⟨o, by rwa [applyOfferUsed_orders], he⟩
    · intro nft cur hfind hq hcur hnull
      rw [hred]
      unfold purchaseBody
      exact purchaseTxn_nullprice _ p t nid buyer nft cur
        (by rw [applyOfferUsed_nfts]; exact hfind) hq hcur hnull

/-- Witness for the amended C6: an unsigned event is discarded with success
and no state change. -/
theorem webhook_discard_semantics_witness :
    xamanWebhook c6db (some c6badp) = (c6db, Resp.ok) :=
  (webhook_discard_semantics c6db c6badp).1 (by decide)

theorem pollQueries_le (responses : Nat → List String) :
    ∀ (fuel i : Nat), pollQueries responses i fuel ≤ fuel := by
  intro fuel
  induction fuel with
  | zero => intro i; simp [pollQueries]
  | succ n ih =>
    intro i
    unfold pollQueries
    split
    · have := ih (i + 1)
      omega
    · omega

theorem pollLoop_none_of_empty (responses : Nat → List String) :
    ∀ (fuel i : Nat), (∀ j, j < fuel → responses (i + j) = []) →
      pollLoop responses i fuel = none := by
  intro fuel
  induction fuel with
  | zero => intro i _; rfl
  | succ n ih =>
    intro i h
    unfold pollLoop
    have h0 : responses i = [] := by simpa using h 0 (Nat.succ_pos n)
    rw [h0]
    refine ih (i + 1) (fun j hj => ?_)
    have h1 := h (j + 1) (by omega)
    have he : i + 1 + j = i + (j + 1) := by omega
    rw [he]
    exact h1

/-- C7: the sell-offer polling loop of /api/list-on-marketplace sleeps a
fixed 2000 ms before each of at most 12 ledger queries and terminates; when
every attempt comes back empty, the endpoint answers the 500 error and
writes nothing, leaving the store exactly as it was. -/
theorem poll_bounded_and_failure_clean (db : DB) (mid : Nat) (responses : Nat → List String) :
    POLL_INTERVAL_MS = 2000
  ∧ POLL_MAX_ATTEMPTS = 12
  ∧ pollQueries responses 0 POLL_MAX_ATTEMPTS ≤ 12
  ∧ ((∀ j, j < 12 → responses j = []) →
      listOnMarketplacePoll db mid responses = (db, ListResp.offerNotFound)) := by
  refine ⟨rfl, rfl, pollQueries_le responses 12 0, ?_⟩
  intro h
  unfold listOnMarketplacePoll
  rw [pollLoop_none_of_empty responses POLL_MAX_ATTEMPTS 0 (fun j hj => by simpa using h j hj)]

def c7db : DB := { nfts := [], orders := [], sellOffers := [] }

/-- Witness for C7: a ledger that never answers with offers. -/
theorem poll_bounded_and_failure_clean_witness :
    listOnMarketplacePoll c7db 1 (fun _ => []) = (c7db, ListResp.offerNotFound) :=
  (poll_bounded_and_failure_clean c7db 1 (fun _ => [])).2.2.2 (fun _ _ => rfl)

/-- Fixtures for C8: one listed unit, an empty cache, one purchase. -/
def c8nft : MarketplaceNft :=
  { id := 1, submission_id := 8, name := "Eta", description := "", creator_wallet := "rC8",
    price_xrp := some "10", price_rlusd := none, quantity := 1, sold_count := 0,
    minted := true, sold := false, is_delisted := false,
    sell_offer_index_xrp := none, sell_offer_index_rlusd := none }

def c8sys : Sys :=
  { cache := { ts := 0, data := none },
    db := { nfts := [c8nft], orders := [], sellOffers := [] } }

def c8p : Payload :=
  { dispatched_result := some "tesSUCCESS", signed := some true,
    txid := some "T8", account := some "rB8", txType := some "NFTokenAcceptOffer",
    txjson_nftoken_id := none, created_offer_id := none,
    blob := some { nft_id := some 1, currency := some "XRP", sell_offer_index := none,
                   marketplace_nft_id := none } }

def c8s1 : Sys := (readOp c8sys 0).1

def c8s2 : Sys := (webhookOp c8s1 (some c8p)).1

/-- C8 counterexample: a purchase settles (quantity drops to 0) but the
snapshot is left in place, so the next catalog read within the TTL still
answers the pre-purchase payload — the mutation did not empty the
snapshot. -/
theorem purchase_does_not_invalidate_cache_cex :
    c8s2.cache = c8s1.cache
  ∧ c8s1.cache.data = some (catalogQuery c8sys.db.nfts)
  ∧ listingQty c8s2.db 1 = some 0
  ∧ (readOp c8s2 5000).2 = MarketResp.json 200 (catalogQuery c8sys.db.nfts)
  ∧ catalogQuery c8s2.db.nfts ≠ catalogQuery c8sys.db.nfts := by
  decide

/-- C8 amended: reads within the TTL of a non-null snapshot return it
unchanged, and two successive reads inside one window answer the same
payload; reads with an empty or expired snapshot recompute and replace it;
the delist toggle empties the snapshot; a webhook delivery (the purchase
decrement) never touches it. -/
theorem cache_ttl_semantics :
    (∀ (cache : MarketCache) (now : Nat) rows q, cache.data = some rows →
        now - cache.ts < MARKET_ALL_TTL_MS →
        marketAll cache now q = (cache, MarketResp.json 200 rows))
  ∧ (∀ (cache : MarketCache) (now : Nat) (r : List CatalogRow), cache.data = none →
        marketAll cache now (Except.ok r) =
          ({ ts := now, data := some r }, MarketResp.json 200 r))
  ∧ (∀ (cache : MarketCache) (now : Nat) rows (r : List CatalogRow), cache.data = some rows →
        ¬ (now - cache.ts < MARKET_ALL_TTL_MS) →
        marketAll cache now (Except.ok r) =
          ({ ts := now, data := some r }, MarketResp.json 200 r))
  ∧ (∀ (s : Sys) (t1 t2 : Nat), s.cache.data = none → t2 - t1 < MARKET_ALL_TTL_MS →
        (readOp (readOp s t1).1 t2).2 = (readOp s t1).2)
  ∧ (∀ (s : Sys) (sid : Int) (d : Bool),
        (toggleDelist s (some sid) d).1.cache = { ts := 0, data := none })
  ∧ (∀ (s : Sys) (p? : Option Payload), (webhookOp s p?).1.cache = s.cache) := by
  refine ⟨?_, ?_, ?_, ?_, ?_, ?_⟩
  · intro cache now rows q hdata hfresh
    simp [marketAll, hdata, hfresh]
  · intro cache now r hdata
    simp [marketAll, hdata]
  · intro cache now rows r hdata hstale
    simp [marketAll, hdata, hstale]
  · intro s t1 t2 hnone hwin
    simp [readOp, marketAll, hnone, hwin]
  · intro s sid d
    rfl
  · intro s p?
    rfl

/-- Witness for the amended C8: an error-free fresh read of a non-null
snapshot. -/
theorem cache_ttl_semantics_witness :
    marketAll { ts := 0, data := some [] } 5 (Except.error ()) =
      ({ ts := 0, data := some [] }, MarketResp.json 200 []) :=
  cache_ttl_semantics.1 { ts := 0, data := some [] } 5 [] (Except.error ()) rfl (by decide)

/-- C9: when the catalog query fails while the snapshot is empty or
expired, /api/market/all answers HTTP 200 with an empty JSON array, keeping
the snapshot, and the answer is the very answer an empty catalog produces. -/
theorem market_all_error_masked (cache : MarketCache) (now : Nat)
    (hstale : cache.data = none ∨ ¬ (now - cache.ts < MARKET_ALL_TTL_MS)) :
    marketAll cache now (Except.error ()) = (cache, MarketResp.json 200 [])
  ∧ (marketAll cache now (Except.error ())).2 =
      (marketAll { ts := cache.ts, data := none } now (Except.ok [])).2 := by
  have h1 : marketAll cache now (Except.error ()) = (cache, MarketResp.json 200 []) := by
    cases hc : cache.data with
    | none => simp [marketAll, hc]
    | some rows =>
      cases hstale with
      | inl h => rw [hc] at h; simp at h
      | inr h => simp [marketAll, hc, h]
  exact ⟨h1, by rw [h1]; simp [marketAll]⟩

/-- Witness for C9: a failing query against an empty snapshot. -/
theorem market_all_error_masked_witness :
    marketAll { ts := 0, data := none } 3 (Except.error ()) =
      ({ ts := 0, data := none }, MarketResp.json 200 []) :=
  (market_all_error_masked { ts := 0, data := none } 3 (Or.inl rfl)).1

/-- C10: the delist toggle acts on every row sharing the submission_id
(also none), flips only is_delisted there, leaves every other column and
table alone, clears the snapshot, and answers ok. -/
theorem toggle_delist_frame (s : Sys) (sid : Int) (d : Bool) :
    (toggleDelist s (some sid) d).2 = ToggleResp.okTrue
  ∧ (toggleDelist s (some sid) d).1.cache = { ts := 0, data := none }
  ∧ (toggleDelist s (some sid) d).1.db.orders = s.db.orders
  ∧ (toggleDelist s (some sid) d).1.db.sellOffers = s.db.sellOffers
  ∧ (toggleDelist s (some sid) d).1.db.nfts.length = s.db.nfts.length
  ∧ ∀ (i : Nat) (old : MarketplaceNft), s.db.nfts[i]? = some old →
      (toggleDelist s (some sid) d).1.db.nfts[i]? =
        some { old with is_delisted := if old.submission_id = sid then d else old.is_delisted } := by
  refine ⟨rfl, rfl, rfl, rfl, by simp [toggleDelist], ?_⟩
  intro i old hold
  simp only [toggleDelist]
  rw [List.getElem?_map, hold]
  by_cases h : old.submission_id = sid <;> simp [h]

def c10nft : MarketplaceNft :=
  { id := 9, submission_id := 7, name := "Iota", description := "", creator_wallet := "rC10",
    price_xrp := none, price_rlusd := none, quantity := 4, sold_count := 0,
    minted := true, sold := false, is_delisted := false,
    sell_offer_index_xrp := none, sell_offer_index_rlusd := none }

def c10sys : Sys :=
  { cache := { ts := 5, data := some [] },
    db := { nfts := [c10nft], orders := [], sellOffers := [] } }

/-- Witness for C10: toggling one concrete row. -/
theorem toggle_delist_frame_witness :
    (toggleDelist c10sys (some 7) true).1.db.nfts[0]? =
      some { c10nft with
             is_delisted := if c10nft.submission_id = 7 then true else c10nft.is_delisted } :=
  (toggle_delist_frame c10sys 7 true).2.2.2.2.2 0 c10nft rfl

end CfcMint
